import Mathlib

/-!
Shallow embedding of the ai-dial-content-generation demo repository.

The repository contains three demo flows:
 - task/text_to_image/task_tti.py : text-to-image generation via a model
   gateway plus download of the generated images from a bucket store;
 - task/image_to_text/task_dial_itt.py : upload of a local image to the
   bucket store, then image analysis referencing the uploaded attachment;
 - task/image_to_text/openai/task_openai_itt.py : image analysis with the
   image inlined as a base64 data URI inside a multimodal message.

Pure data and control flow of these scripts are translated into Lean
definitions below.  Network calls (DialModelClient.get_completion,
DialBucketClient.put_file / get_file) are modelled as explicit function
parameters, so that a theorem can quantify over every behaviour of the
remote side; file writes are modelled as an explicit list of
(file name, bytes) pairs; the scoped acquisition and release performed by
Python's `async with` is modelled as an explicit event trace.
-/

set_option linter.unusedVariables false

/-- Role enum, translated from task/_models/role.py as used by the demo
scripts (Role.USER and friends). -/
inductive Role where
  | SYSTEM
  | USER
  | ASSISTANT
deriving DecidableEq, Repr

/-- Attachment record, translated from task/_models/custom_content.py as the
demos use it: an optional title, an optional url and an optional MIME type
(the url comes from `response.get('url')`, which may be absent). -/
structure Attachment where
  title : Option String
  url : Option String
  type : Option String
deriving DecidableEq, Repr

/-- CustomContent record: the attachment side-channel of a message. -/
structure CustomContent where
  attachments : List Attachment
deriving DecidableEq, Repr

/-- Plain-text Message, translated from task/_models/message.py as the demos
use it: a role, a plain string content, and an optional custom_content
side-channel. -/
structure Message where
  role : Role
  content : String
  custom_content : Option CustomContent := none
deriving DecidableEq, Repr

/-- Normalized completion response as the demo scripts consume it: a textual
content (possibly absent) and an optional custom_content carrying generated
attachments. -/
structure ModelResponse where
  content : Option String
  custom_content : Option CustomContent
deriving DecidableEq, Repr

/-- Size constants, translated from class Size in task_tti.py. -/
def Size.square : String := "1024x1024"

def Size.height_rectangle : String := "1024x1792"

def Size.width_rectangle : String := "1792x1024"

/-- Style constants, translated from class Style in task_tti.py. -/
def Style.natural : String := "natural"

def Style.vivid : String := "vivid"

/-- Quality constants, translated from class Quality in task_tti.py. -/
def Quality.standard : String := "standard"

def Quality.hd : String := "hd"

/-- An outbound chat-completion call as a test double would capture it: the
keyword arguments handed to DialModelClient.get_completion.  custom_fields is
an ordered string-to-string mapping, matching the dict built in
task_tti.start. -/
structure OutboundCall where
  messages : List Message
  custom_fields : List (String × String)
deriving DecidableEq, Repr

/-- Error raised by a bucket store call (transport failure, authentication
failure, store-side rejection); the demos only propagate it. -/
inductive StoreErr where
  | err (msg : String)
deriving DecidableEq, Repr

/-- Session lifecycle and store-call events of a bucket-client scope. -/
inductive Ev where
  | acquire
  | release
  | get_file_call (url : String)
  | put_file_call
deriving DecidableEq, Repr

/-- Scoped-resource semantics of `async with DialBucketClient(...) as c:` in
Python: __aenter__ runs on entry, the body runs next, and __aexit__ runs on
every exit path, whether the body returned normally or raised.  The body is a
pair of the events it emitted before exiting and its outcome. -/
def async_with {α : Type} (body : List Ev × α) : List Ev × α :=
  (Ev.acquire :: body.1 ++ [Ev.release], body.2)

/-- Python truthiness of attachment.url as tested by `if attachment.url:` in
_save_images: None and the empty string are falsy. -/
def truthy : Option String → Bool
  | none => false
  | some s => !(s == "")

/-- Local file name built in _save_images:
f"generated_image_TIMESTAMP_IDXPLUSONE.png". -/
def save_file_name (timestamp : String) (idx1 : Nat) : String :=
  "generated_image_" ++ timestamp ++ "_" ++ Nat.repr idx1 ++ ".png"

/-- Loop body of _save_images in task_tti.py, translated from the source.
`get` is the behaviour of bucket_client.get_file (it may raise), `now` gives
the timestamp string observed by datetime.now() at loop iteration idx.
Returns the store-call events, the (file name, bytes) writes performed, and
the error that aborted the loop, if any.  Attachments whose url is falsy are
skipped; the enumeration index advances on every attachment. -/
def save_images_loop (get : String → Except StoreErr (List Nat)) (now : Nat → String) :
    List Attachment → Nat → List Ev × List (String × List Nat) × Option StoreErr
  | [], _ => ([], [], none)
  | att :: rest, idx =>
    match att.url with
    | none => save_images_loop get now rest (idx + 1)
    | some u =>
      if u = "" then save_images_loop get now rest (idx + 1)
      else
        match get u with
        | Except.error e => ([Ev.get_file_call u], [], some e)
        | Except.ok image_bytes =>
          let r := save_images_loop get now rest (idx + 1)
          (Ev.get_file_call u :: r.1,
           (save_file_name (now idx) (idx + 1), image_bytes) :: r.2.1,
           r.2.2)

/-- _save_images from task_tti.py: a bucket-client scope around the download
loop.  Returns the full event trace, the file writes and the propagated
error, if any. -/
def save_images (get : String → Except StoreErr (List Nat)) (now : Nat → String)
    (attachments : List Attachment) : List Ev × List (String × List Nat) × Option StoreErr :=
  async_with (save_images_loop get now attachments 0)

/-- Prompt sent by task_tti.start. -/
def tti_prompt : String := "Sunny day on Bali"

/-- The custom_fields dict built in task_tti.start, as an ordered mapping. -/
def tti_custom_fields : List (String × String) :=
  [("size", Size.square), ("quality", Quality.hd), ("style", Style.vivid)]

/-- The single user message built in task_tti.start. -/
def tti_message : Message := { role := Role.USER, content := tti_prompt }

/-- The get_completion call issued by task_tti.start, exactly as built. -/
def tti_outbound : OutboundCall :=
  { messages := [tti_message], custom_fields := tti_custom_fields }

/-- Tail of task_tti.start after the completion call: either the script
enters the save branch with the response attachments, or it prints the
"No images were generated" warning. -/
inductive TtiTail where
  | saved (atts : List Attachment)
  | warned
deriving DecidableEq, Repr

/-- Branch condition of task_tti.start, translated from
`if response.custom_content and response.custom_content.attachments:` under
Python truthiness: a CustomContent object is truthy, None is falsy, and an
empty attachments list is falsy. -/
def tti_handle_response (response : ModelResponse) : TtiTail :=
  match response.custom_content with
  | some cc => if cc.attachments.isEmpty then TtiTail.warned else TtiTail.saved cc.attachments
  | none => TtiTail.warned

/-- task_tti.start, translated from the source: build the custom fields and
the user message, issue the completion call, then either download every
generated attachment via _save_images or warn.  Returns the captured
outbound call, the branch taken, and the local file writes performed. -/
def tti_start (client : OutboundCall → ModelResponse)
    (get : String → Except StoreErr (List Nat)) (now : Nat → String) :
    OutboundCall × TtiTail × List (String × List Nat) :=
  let call := tti_outbound
  let response := client call
  (call,
   match tti_handle_response response with
   | TtiTail.saved atts => (TtiTail.saved atts, (save_images get now atts).2.1)
   | TtiTail.warned => (TtiTail.warned, []))

/-- File name uploaded by _put_image in task_dial_itt.py. -/
def dial_file_name : String := "dialx-banner.png"

/-- MIME type used by _put_image in task_dial_itt.py. -/
def mime_type_png : String := "image/png"

/-- _put_image from task_dial_itt.py, translated from the source: inside a
bucket-client scope, upload the image bytes with put_file and package the
store's reply into an Attachment.  The reply is a JSON object read with
`response.get('url')`, modelled as an ordered string map with lookup.
`put_file` is the behaviour of the store (it may raise). -/
def put_image (image_bytes : List Nat)
    (put_file : List Nat → Except StoreErr (List (String × String))) :
    List Ev × Except StoreErr Attachment :=
  async_with <|
    match put_file image_bytes with
    | Except.error e => ([Ev.put_file_call], Except.error e)
    | Except.ok response =>
      ([Ev.put_file_call],
       Except.ok { title := some dial_file_name,
                   url := response.lookup "url",
                   type := some mime_type_png })

/-- The user message built in task_dial_itt.start around the uploaded
attachment. -/
def dial_message (att : Attachment) : Message :=
  { role := Role.USER,
    content := "What do you see on this picture?",
    custom_content := some { attachments := [att] } }

/-- Standard base64 alphabet used by Python's base64.b64encode (RFC 4648). -/
def base64_alphabet : List Char :=
  "ABCDEFGHIJKLMNOPQRSTUVWXYZabcdefghijklmnopqrstuvwxyz0123456789+/".data

/-- Character for a 6-bit group. -/
def b64_char (n : Nat) : Char := base64_alphabet.getD n 'A'

/-- Base64 encoding of a byte list (bytes as naturals below 256), translated
from the semantics of Python's base64.b64encode: 3-byte groups become 4
characters; a trailing group of 1 or 2 bytes is padded with '='. -/
def b64_encode_chars : List Nat → List Char
  | [] => []
  | [a] => [b64_char (a / 4), b64_char (a % 4 * 16), '=', '=']
  | [a, b] => [b64_char (a / 4), b64_char (a % 4 * 16 + b / 16), b64_char (b % 16 * 4), '=']
  | a :: b :: c :: rest =>
    b64_char (a / 4) :: b64_char (a % 4 * 16 + b / 16) ::
      b64_char (b % 16 * 4 + c / 64) :: b64_char (c % 64) :: b64_encode_chars rest

/-- String form of the base64 encoding, as `base64.b64encode(...).decode('utf-8')`. -/
def b64encode (image_bytes : List Nat) : String := (b64_encode_chars image_bytes).asString

/-- Image url wrapper, translated from ImgUrl in
task/image_to_text/openai/message.py as the demo uses it. -/
structure ImgUrl where
  url : String
deriving DecidableEq, Repr

/-- Content part of a multimodal message, translated from TxtContent and
ImgContent in task/image_to_text/openai/message.py as the demo uses them. -/
inductive OpenAIContentPart where
  | TxtContent (text : String)
  | ImgContent (image_url : ImgUrl)
deriving DecidableEq, Repr

/-- Multimodal message, translated from ContentedMessage in
task/image_to_text/openai/message.py as the demo uses it: a role and an
ordered list of content parts. -/
structure ContentedMessage where
  role : Role
  content : List OpenAIContentPart
deriving DecidableEq, Repr

/-- Error raised on malformed Content Model construction. -/
inductive MessageError where
  | InvalidMessageError (msg : String)
deriving DecidableEq, Repr

/-- Modelled from the spec: task/image_to_text/openai/message.py is not part
of the published sources, only its importers and tests are; the spec requires
that a TextPart with empty text or an ImagePart with an empty url is
invalid. -/
def valid_part : OpenAIContentPart → Bool
  | OpenAIContentPart.TxtContent t => !(t == "")
  | OpenAIContentPart.ImgContent iu => !(iu.url == "")

/-- Modelled from the spec: the validating constructor of a multimodal
Message (ContentedMessage in task/image_to_text/openai/message.py, not part
of the published sources).  Construction fails with InvalidMessageError if
the content sequence is empty, or if any TextPart has empty text, or if any
ImagePart has an empty url. -/
def mk_contented_message (role : Role) (content : List OpenAIContentPart) :
    Except MessageError ContentedMessage :=
  if content.isEmpty then
    Except.error (MessageError.InvalidMessageError "content must not be empty")
  else if content.all valid_part then
    Except.ok { role := role, content := content }
  else
    Except.error (MessageError.InvalidMessageError "invalid content part")

/-- First question sent by task_openai_itt.start. -/
def openai_question_1 : String := "What\x27s in this image? Please describe it in detail."

/-- Second question sent by task_openai_itt.start. -/
def openai_question_2 : String := "Describe the color scheme and branding elements in this image."

/-- The data URI built by task_openai_itt.start:
f"data:image/png;base64,BASE64IMAGE". -/
def png_data_uri (image_bytes : List Nat) : String :=
  "data:image/png;base64," ++ b64encode image_bytes

/-- task_openai_itt.start, translated from the source: the messages lists of
the two get_completion calls, as a function of the bytes read from the image
file.  Both calls carry one two-part message: a text question followed by the
image as a base64 data URI. -/
def openai_start_calls (image_bytes : List Nat) : List (List ContentedMessage) :=
  let base64_image := b64encode image_bytes
  let base64_message : ContentedMessage :=
    { role := Role.USER,
      content := [OpenAIContentPart.TxtContent openai_question_1,
                  OpenAIContentPart.ImgContent { url := "data:image/png;base64," ++ base64_image }] }
  let data_uri_message : ContentedMessage :=
    { role := Role.USER,
      content := [OpenAIContentPart.TxtContent openai_question_2,
                  OpenAIContentPart.ImgContent { url := "data:image/png;base64," ++ base64_image }] }
  [[base64_message], [data_uri_message]]

/-- View of a message as handed to get_completion, unifying the plain-string
Message shape and the content-part-list ContentedMessage shape: the content
is one of the two shapes, never both. -/
inductive SentContent where
  | plain (s : String)
  | multi (parts : List OpenAIContentPart)
deriving DecidableEq, Repr

/-- A sent message in the unified view. -/
structure SentMessage where
  role : Role
  content : SentContent
  custom_content : Option CustomContent
deriving DecidableEq, Repr

/-- View of a plain Message as sent. -/
def Message.toSent (m : Message) : SentMessage :=
  { role := m.role, content := SentContent.plain m.content, custom_content := m.custom_content }

/-- View of a multimodal ContentedMessage as sent (it has no custom_content
field). -/
def ContentedMessage.toSent (m : ContentedMessage) : SentMessage :=
  { role := m.role, content := SentContent.multi m.content, custom_content := none }

/-- Content invariant of the spec: content is a single plain string or a
non-empty ordered sequence of content parts. -/
def content_invariant (m : SentMessage) : Bool :=
  match m.content with
  | SentContent.plain _ => true
  | SentContent.multi parts => !parts.isEmpty

/-- Side-channel discipline of the spec as realized by the demos: when
custom_content is present, the message content is a plain string, left
unaltered. -/
def custom_content_side_channel (m : SentMessage) : Bool :=
  match m.custom_content, m.content with
  | some _, SentContent.plain _ => true
  | some _, SentContent.multi _ => false
  | none, _ => true

/-- Every message one of the three demo flows passes to get_completion:
the task_tti user message, the task_dial_itt user message built around the
uploaded attachment, and the two task_openai_itt multimodal messages built
from the image bytes. -/
def demo_sent_messages (image_bytes : List Nat) (att : Attachment) : List SentMessage :=
  tti_outbound.messages.map Message.toSent
    ++ [(dial_message att).toSent]
    ++ ((openai_start_calls image_bytes).flatten.map ContentedMessage.toSent)

/-- Modelled from the spec: the DialBucketClient (task/_utils/bucket_client.py)
is not part of the published sources, only its callers and tests are.  The
spec describes a bucket-style object store holding binary payloads addressed
by URL, reachable and authenticated, where put_file stores the payload under
a store-chosen URL and get_file fetches the bytes at a previously issued
URL. -/
structure BucketStore where
  reachable : Bool
  authenticated : Bool
  counter : Nat
  files : List (String × List Nat)
deriving DecidableEq, Repr

/-- Modelled from the spec: well-formedness of a MIME string
(type "/" subtype). -/
def well_formed_mime (m : String) : Bool := !(m == "") && m.data.contains '/'

/-- Modelled from the spec: put_file stores the payload under a fresh
store-chosen URL and returns that URL; it fails unless the store is reachable
and the client authenticated. -/
def BucketStore.put_file (s : BucketStore) (name : String) (mime : String)
    (content : List Nat) : Except StoreErr (BucketStore × String) :=
  if s.reachable && s.authenticated then
    let url := "files/bucket/" ++ Nat.repr s.counter ++ "/" ++ name
    Except.ok ({ s with counter := s.counter + 1, files := (url, content) :: s.files }, url)
  else
    Except.error (StoreErr.err "upload failed")

/-- Modelled from the spec: get_file fetches the bytes stored at a previously
issued URL; it fails unless the store is reachable and the client
authenticated, and surfaces an error on an unknown URL. -/
def BucketStore.get_file (s : BucketStore) (url : String) : Except StoreErr (List Nat) :=
  if s.reachable && s.authenticated then
    match s.files.lookup url with
    | some content => Except.ok content
    | none => Except.error (StoreErr.err "not found")
  else
    Except.error (StoreErr.err "download failed")

/-- Top-level statement of a Python module, as far as the demos' import
behaviour is concerned: a definition (import, class or def statements, no
effect), an unconditional start() call, or the
`if __name__ == "__main__": start()` guard. -/
inductive TopStmt where
  | defStmt
  | callStart
  | guardedMain
deriving DecidableEq, Repr

/-- Python module-execution semantics for these bodies: running a module
under a given __name__ executes start() exactly when some top-level statement
is an unconditional start() call, or is the __main__ guard and __name__ is
"__main__".  Importing a module runs its body with __name__ set to the
dotted module path, never "__main__". -/
def runs_start (body : List TopStmt) (module_name : String) : Bool :=
  body.any fun st =>
    match st with
    | TopStmt.callStart => true
    | TopStmt.guardedMain => module_name == "__main__"
    | TopStmt.defStmt => false

/-- Top-level body of task/text_to_image/task_tti.py: imports, the Size,
Style and Quality classes, _save_images and start definitions, then a bare
`start()` call on the last line. -/
def tti_module_body : List TopStmt := [TopStmt.defStmt, TopStmt.callStart]

/-- Top-level body of task/image_to_text/task_dial_itt.py: imports, the
_put_image and start definitions, then a bare `start()` call on the last
line. -/
def dial_itt_module_body : List TopStmt := [TopStmt.defStmt, TopStmt.callStart]

/-- Top-level body of task/image_to_text/openai/task_openai_itt.py: imports
and the start definition, then `if __name__ == "__main__": start()`. -/
def openai_itt_module_body : List TopStmt := [TopStmt.defStmt, TopStmt.guardedMain]

/-- Sanity check of the base64 translation against the RFC 4648 test
vectors for "M", "Ma", "Man" and the empty input. -/
theorem b64encode_test_vectors :
    b64encode [77, 97, 110] = "TWFu" ∧ b64encode [77, 97] = "TWE=" ∧
      b64encode [77] = "TQ==" ∧ b64encode [] = "" := by
  decide

/-- Claim C1: in the text-to-image flow the custom fields handed to
get_completion are exactly the mapping the caller built: the literal mapping
size to 1024x1024, quality to hd, style to vivid, with the same key set, the
same values and the same order, no key renamed, dropped or reordered. -/
theorem claim_C1_custom_fields_verbatim
    (client : OutboundCall → ModelResponse)
    (get : String → Except StoreErr (List Nat)) (now : Nat → String) :
    (tti_start client get now).1.custom_fields = tti_custom_fields ∧
      (tti_start client get now).1.custom_fields =
        [("size", "1024x1024"), ("quality", "hd"), ("style", "vivid")] := by
  exact ⟨rfl, rfl⟩

/-- Claim C2: whenever the store's put_file call succeeds, the Attachment
returned by _put_image carries title equal to the uploaded name
(dialx-banner.png), type equal to the MIME type (image/png) and url equal to
the url field of the store's upload response. -/
theorem claim_C2_put_image_attachment
    (image_bytes : List Nat)
    (put_file : List Nat → Except StoreErr (List (String × String)))
    (response : List (String × String))
    (h : put_file image_bytes = Except.ok response) :
    (put_image image_bytes put_file).2 =
      Except.ok { title := some "dialx-banner.png",
                  url := response.lookup "url",
                  type := some "image/png" } := by
  simp [put_image, async_with, h, dial_file_name, mime_type_png]

/-- Witness for claim C2 at a concrete store reply. -/
theorem claim_C2_witness :
    (put_image [1, 2]
        (fun _ => Except.ok [("url", "https://fake-bucket.example.com/files/dialx-banner.png")])).2 =
      Except.ok { title := some "dialx-banner.png",
                  url := some "https://fake-bucket.example.com/files/dialx-banner.png",
                  type := some "image/png" } := by
  have h := claim_C2_put_image_attachment [1, 2]
    (fun _ => Except.ok [("url", "https://fake-bucket.example.com/files/dialx-banner.png")])
    [("url", "https://fake-bucket.example.com/files/dialx-banner.png")] rfl
  rw [h]
  rfl

/-- Claim C4: whatever response get_completion returns, if its custom_content
is absent or its attachments list is empty, task_tti.start takes the warning
branch and performs no download and no file write; it never dereferences the
missing attachments. -/
theorem claim_C4_tolerates_missing_attachments
    (get : String → Except StoreErr (List Nat)) (now : Nat → String)
    (r : ModelResponse)
    (h : r.custom_content = none ∨
      ∃ cc, r.custom_content = some cc ∧ cc.attachments = []) :
    (tti_start (fun _ => r) get now).2 = (TtiTail.warned, []) := by
  rcases h with h | ⟨cc, hcc, hatts⟩
  · simp [tti_start, tti_handle_response, h]
  · simp [tti_start, tti_handle_response, hcc, hatts]

/-- Witness for claim C4 at a concrete text-only response. -/
theorem claim_C4_witness :
    (tti_start (fun _ => { content := some "a text-only answer", custom_content := none })
        (fun _ => Except.error (StoreErr.err "unused")) (fun _ => "20240115_103045")).2 =
      (TtiTail.warned, []) :=
  claim_C4_tolerates_missing_attachments
    (fun _ => Except.error (StoreErr.err "unused")) (fun _ => "20240115_103045")
    { content := some "a text-only answer", custom_content := none }
    (Or.inl rfl)

/-- Claim C10: importing task.text_to_image.task_tti or
task.image_to_text.task_dial_itt executes start() as a module-level side
effect, because the module body ends in a bare start() call; importing
task.image_to_text.openai.task_openai_itt does not run start(), because its
call sits under the __main__ guard, which fires only when the module runs as
__main__. -/
theorem claim_C10_import_side_effects :
    runs_start tti_module_body "task.text_to_image.task_tti" = true ∧
      runs_start dial_itt_module_body "task.image_to_text.task_dial_itt" = true ∧
      runs_start openai_itt_module_body "task.image_to_text.openai.task_openai_itt" = false ∧
      runs_start openai_itt_module_body "__main__" = true := by
  decide

/-- Claim C5: for every role, constructing a multimodal ContentedMessage with
an empty content sequence fails with InvalidMessageError, and construction
also fails with InvalidMessageError when some TxtContent part has empty text
or some ImgContent part has an empty url. -/
theorem claim_C5_invalid_message_construction
    (role : Role) (content : List OpenAIContentPart) :
    (content = [] →
      mk_contented_message role content =
        Except.error (MessageError.InvalidMessageError "content must not be empty")) ∧
    (OpenAIContentPart.TxtContent "" ∈ content →
      ∃ s, mk_contented_message role content =
        Except.error (MessageError.InvalidMessageError s)) ∧
    (∀ iu : ImgUrl, OpenAIContentPart.ImgContent iu ∈ content → iu.url = "" →
      ∃ s, mk_contented_message role content =
        Except.error (MessageError.InvalidMessageError s)) := by
  refine ⟨?_, ?_, ?_⟩
  · intro h
    subst h
    rfl
  · intro hmem
    by_cases hempty : content.isEmpty
    · exact ⟨"content must not be empty", by simp [mk_contented_message, hempty]⟩
    · have hall : content.all valid_part = false := by
        rw [List.all_eq_false]
        exact ⟨_, hmem, by simp [valid_part]⟩
      exact ⟨"invalid content part", by simp [mk_contented_message, hempty, hall]⟩
  · intro iu hmem hurl
    by_cases hempty : content.isEmpty
    · exact ⟨"content must not be empty", by simp [mk_contented_message, hempty]⟩
    · have hall : content.all valid_part = false := by
        rw [List.all_eq_false]
        exact ⟨_, hmem, by simp [valid_part, hurl]⟩
      exact ⟨"invalid content part", by simp [mk_contented_message, hempty, hall]⟩

/-- Witness for claim C5 at concrete invalid contents: the empty sequence, a
sequence with an empty text part, and a sequence with an empty image url. -/
theorem claim_C5_witness :
    (mk_contented_message Role.USER [] =
      Except.error (MessageError.InvalidMessageError "content must not be empty")) ∧
    (∃ s, mk_contented_message Role.ASSISTANT [OpenAIContentPart.TxtContent ""] =
      Except.error (MessageError.InvalidMessageError s)) ∧
    (∃ s, mk_contented_message Role.SYSTEM
        [OpenAIContentPart.TxtContent "hi", OpenAIContentPart.ImgContent { url := "" }] =
      Except.error (MessageError.InvalidMessageError s)) :=
  ⟨(claim_C5_invalid_message_construction Role.USER []).1 rfl,
   (claim_C5_invalid_message_construction Role.ASSISTANT
      [OpenAIContentPart.TxtContent ""]).2.1 (by simp),
   (claim_C5_invalid_message_construction Role.SYSTEM
      [OpenAIContentPart.TxtContent "hi", OpenAIContentPart.ImgContent { url := "" }]).2.2
      { url := "" } (by simp) rfl⟩

/-- Claim C7: every multimodal message the OpenAI image-to-text demo sends
has exactly two content parts in order: first a TxtContent with non-empty
text, then an ImgContent whose url is the string data:image/png;base64,
concatenated with the standard base64 encoding of the bytes read from the
image file. -/
theorem claim_C7_openai_message_shape (image_bytes : List Nat)
    (m : ContentedMessage) (hm : m ∈ (openai_start_calls image_bytes).flatten) :
    ∃ t, m.content =
        [OpenAIContentPart.TxtContent t,
         OpenAIContentPart.ImgContent
           { url := "data:image/png;base64," ++ b64encode image_bytes }] ∧
      t ≠ "" := by
  simp [openai_start_calls] at hm
  rcases hm with h | h
  · subst h
    exact ⟨openai_question_1, rfl, by decide⟩
  · subst h
    exact ⟨openai_question_2, rfl, by decide⟩

/-- Witness for claim C7 at concrete image bytes and the first message sent. -/
theorem claim_C7_witness :
    ∃ t, ({ role := Role.USER,
            content := [OpenAIContentPart.TxtContent openai_question_1,
                        OpenAIContentPart.ImgContent
                          { url := "data:image/png;base64," ++ b64encode [137, 80, 78, 71] }] } :
        ContentedMessage).content =
        [OpenAIContentPart.TxtContent t,
         OpenAIContentPart.ImgContent
           { url := "data:image/png;base64," ++ b64encode [137, 80, 78, 71] }] ∧
      t ≠ "" :=
  claim_C7_openai_message_shape [137, 80, 78, 71] _ (by simp [openai_start_calls])

/-- Claim C8: every message the demo flows pass to get_completion satisfies
the content invariant: its content is either a single plain string or a
non-empty ordered sequence of content parts, never both shapes at once; and
when custom_content is present it accompanies a plain-string content without
altering it. -/
theorem claim_C8_content_invariant (image_bytes : List Nat) (att : Attachment)
    (m : SentMessage) (hm : m ∈ demo_sent_messages image_bytes att) :
    content_invariant m = true ∧ custom_content_side_channel m = true := by
  simp [demo_sent_messages, openai_start_calls, tti_outbound, tti_message, dial_message,
        Message.toSent, ContentedMessage.toSent] at hm
  rcases hm with h | h | h | h <;> subst h <;>
    simp [content_invariant, custom_content_side_channel]

/-- Witness for claim C8 at the concrete text-to-image user message. -/
theorem claim_C8_witness :
    content_invariant (Message.toSent tti_message) = true ∧
      custom_content_side_channel (Message.toSent tti_message) = true :=
  claim_C8_content_invariant [] { title := none, url := none, type := none }
    (Message.toSent tti_message) (by simp [demo_sent_messages, tti_outbound])

/-- Claim C3: uploading a non-empty byte-sequence with a well-formed MIME
type through a reachable, authenticated store and then downloading the
resulting url returns exactly the uploaded bytes. -/
theorem claim_C3_store_round_trip (s : BucketStore) (name mime : String)
    (b : List Nat)
    (hreach : s.reachable = true) (hauth : s.authenticated = true)
    (hb : b ≠ []) (hmime : well_formed_mime mime = true) :
    ∃ s' url, s.put_file name mime b = Except.ok (s', url) ∧
      s'.get_file url = Except.ok b := by
  refine ⟨{ s with counter := s.counter + 1, files := ("files/bucket/" ++ Nat.repr s.counter ++ "/" ++ name, b) :: s.files }, "files/bucket/" ++ Nat.repr s.counter ++ "/" ++ name, ?_, ?_⟩
  · simp [BucketStore.put_file, hreach, hauth]
  · simp [BucketStore.get_file, hreach, hauth, List.lookup]

/-- Witness for claim C3 at a concrete store, payload and MIME type. -/
theorem claim_C3_witness :
    ∃ s' url,
      BucketStore.put_file
          { reachable := true, authenticated := true, counter := 0, files := [] }
          "dialx-banner.png" "image/png" [137, 80, 78, 71] = Except.ok (s', url) ∧
        s'.get_file url = Except.ok [137, 80, 78, 71] :=
  claim_C3_store_round_trip
    { reachable := true, authenticated := true, counter := 0, files := [] }
    "dialx-banner.png" "image/png" [137, 80, 78, 71] rfl rfl (by decide) (by decide)

/-- A bucket-client event trace is properly scoped: it opens with the one
session acquisition and closes with the one session release. -/
def session_scoped (t : List Ev) : Prop :=
  t.head? = some Ev.acquire ∧ t.getLast? = some Ev.release ∧
    t.count Ev.acquire = 1 ∧ t.count Ev.release = 1

/-- The download loop of _save_images emits only get_file calls, never a
session acquisition or release. -/
theorem save_images_loop_events (get : String → Except StoreErr (List Nat))
    (now : Nat → String) :
    ∀ (atts : List Attachment) (idx : Nat),
      ∀ e ∈ (save_images_loop get now atts idx).1, ∃ u, e = Ev.get_file_call u := by
  intro atts
  induction atts with
  | nil =>
    intro idx e he
    simp [save_images_loop] at he
  | cons att rest ih =>
    intro idx e he
    cases hurl : att.url with
    | none =>
      simp only [save_images_loop, hurl] at he
      exact ih (idx + 1) e he
    | some u =>
      simp only [save_images_loop, hurl] at he
      by_cases hu : u = ""
      · rw [if_pos hu] at he
        exact ih (idx + 1) e he
      · rw [if_neg hu] at he
        cases hget : get u with
        | error ex =>
          rw [hget] at he
          simp at he
          exact ⟨u, he⟩
        | ok bs =>
          rw [hget] at he
          simp at he
          rcases he with he | he
          · exact ⟨u, he⟩
          · exact ih (idx + 1) e he

/-- A scope whose body never touches the session lifecycle yields a properly
scoped trace, whatever the body's outcome was. -/
theorem async_with_session_scoped {α : Type} (body : List Ev × α)
    (h : ∀ e ∈ body.1, e ≠ Ev.acquire ∧ e ≠ Ev.release) :
    session_scoped (async_with body).1 := by
  have hacq : body.1.count Ev.acquire = 0 :=
    List.count_eq_zero.mpr fun hmem => (h _ hmem).1 rfl
  have hrel : body.1.count Ev.release = 0 :=
    List.count_eq_zero.mpr fun hmem => (h _ hmem).2 rfl
  refine ⟨rfl, ?_, ?_, ?_⟩
  · show ((Ev.acquire :: body.1) ++ [Ev.release]).getLast? = some Ev.release
    exact List.getLast?_concat _
  · show ((Ev.acquire :: body.1) ++ [Ev.release]).count Ev.acquire = 1
    rw [List.count_append, List.count_cons_self, hacq]
    rfl
  · show ((Ev.acquire :: body.1) ++ [Ev.release]).count Ev.release = 1
    rw [List.count_append, List.count_cons_of_ne (by simp), hrel]
    rfl

/-- Claim C6: on every execution path of the upload flow (_put_image) and
the download flow (_save_images), whether the store calls inside the scope
succeed or raise, the bucket-client session acquired at entry is released
before the function exits; a session is never leaked. -/
theorem claim_C6_session_released (image_bytes : List Nat)
    (put_file : List Nat → Except StoreErr (List (String × String)))
    (get : String → Except StoreErr (List Nat)) (now : Nat → String)
    (attachments : List Attachment) :
    session_scoped (put_image image_bytes put_file).1 ∧
      session_scoped (save_images get now attachments).1 := by
  constructor
  · have htrace : (put_image image_bytes put_file).1 =
        [Ev.acquire, Ev.put_file_call, Ev.release] := by
      cases h : put_file image_bytes <;> simp [put_image, async_with, h]
    rw [htrace]
    refine ⟨rfl, rfl, ?_, ?_⟩ <;> decide
  · apply async_with_session_scoped
    intro e he
    obtain ⟨u, rfl⟩ := save_images_loop_events get now attachments 0 e he
    exact ⟨by simp, by simp⟩

/-- Decimal digit list of a natural number, most significant first; the
closed form of the unfolding of Nat.toDigitsCore at base 10. -/
def ten_digits (n : Nat) : List Char :=
  if h : n < 10 then [Nat.digitChar n]
  else ten_digits (n / 10) ++ [Nat.digitChar (n % 10)]
termination_by n
decreasing_by
  exact Nat.div_lt_self (by omega) (by omega)

/-- Nat.toDigitsCore at base 10 computes ten_digits, given enough fuel. -/
theorem toDigitsCore_eq_ten_digits :
    ∀ (fuel n : Nat) (ds : List Char), n < fuel →
      Nat.toDigitsCore 10 fuel n ds = ten_digits n ++ ds := by
  intro fuel
  induction fuel with
  | zero =>
    intro n ds h
    omega
  | succ f ih =>
    intro n ds h
    rw [Nat.toDigitsCore]
    by_cases h10 : n < 10
    · have hdiv : n / 10 = 0 := Nat.div_eq_of_lt h10
      have hmod : n % 10 = n := Nat.mod_eq_of_lt h10
      rw [ten_digits, dif_pos h10]
      simp [hdiv, hmod]
    · have hne : ¬ n / 10 = 0 := by omega
      rw [if_neg hne, ih (n / 10) _ (by omega)]
      conv_rhs => rw [ten_digits]
      rw [dif_neg h10]
      simp

/-- The characters of Nat.repr are exactly ten_digits. -/
theorem repr_data_eq_ten_digits (n : Nat) : (Nat.repr n).data = ten_digits n := by
  show (Nat.toDigits 10 n).asString.data = ten_digits n
  rw [Nat.toDigits, toDigitsCore_eq_ten_digits (n + 1) n [] (by omega)]
  simp [List.asString]

/-- Numeric value of a digit character. -/
def dec_digit (c : Char) : Nat := c.toNat - 48

/-- Numeric value of a most-significant-first digit character list. -/
def dec_digits (l : List Char) : Nat :=
  l.foldl (fun a c => a * 10 + dec_digit c) 0

/-- dec_digit inverts Nat.digitChar on decimal digits. -/
theorem dec_digit_digitChar : ∀ d, d < 10 → dec_digit (Nat.digitChar d) = d := by
  decide

/-- Decoding inverts ten_digits. -/
theorem dec_digits_ten_digits : ∀ n, dec_digits (ten_digits n) = n := by
  intro n
  induction n using Nat.strong_induction_on with
  | _ n ih =>
    by_cases h : n < 10
    · rw [ten_digits, dif_pos h]
      simp [dec_digits, dec_digit_digitChar n h]
    · rw [ten_digits, dif_neg h]
      have hstep : dec_digits (ten_digits (n / 10) ++ [Nat.digitChar (n % 10)]) =
          dec_digits (ten_digits (n / 10)) * 10 + dec_digit (Nat.digitChar (n % 10)) := by
        simp [dec_digits, List.foldl_append]
      rw [hstep, ih (n / 10) (Nat.div_lt_self (by omega) (by omega)),
        dec_digit_digitChar (n % 10) (Nat.mod_lt n (by omega))]
      omega

/-- ten_digits is injective. -/
theorem ten_digits_inj {m n : Nat} (h : ten_digits m = ten_digits n) : m = n := by
  have hm := dec_digits_ten_digits m
  rw [h, dec_digits_ten_digits] at hm
  omega

/-- Decimal digit characters are never an underscore. -/
theorem digitChar_ne_underscore : ∀ d, d < 10 → Nat.digitChar d ≠ '_' := by
  decide

/-- ten_digits never contains an underscore. -/
theorem ten_digits_no_underscore : ∀ n, ∀ c ∈ ten_digits n, c ≠ '_' := by
  intro n
  induction n using Nat.strong_induction_on with
  | _ n ih =>
    by_cases h : n < 10
    · rw [ten_digits, dif_pos h]
      intro c hc
      simp at hc
      subst hc
      exact digitChar_ne_underscore n h
    · rw [ten_digits, dif_neg h]
      intro c hc
      rcases List.mem_append.mp hc with hc | hc
      · exact ih (n / 10) (Nat.div_lt_self (by omega) (by omega)) c hc
      · simp at hc
        subst hc
        exact digitChar_ne_underscore (n % 10) (Nat.mod_lt n (by omega))

/-- takeWhile stops exactly at the first failing element. -/
theorem takeWhile_append_cons {α : Type} (p : α → Bool) :
    ∀ (l1 : List α) (a : α) (l2 : List α),
      (∀ c ∈ l1, p c = true) → p a = false → (l1 ++ a :: l2).takeWhile p = l1 := by
  intro l1
  induction l1 with
  | nil =>
    intro a l2 h hp
    simp [List.takeWhile_cons, hp]
  | cons x xs ih =>
    intro a l2 h hp
    have hx : p x = true := h x (by simp)
    simp only [List.cons_append, List.takeWhile_cons, hx, if_true]
    rw [ih a l2 (fun c hc => h c (by simp [hc])) hp]

/-- The maximal underscore-free suffix of a character list. -/
def after_last_underscore (l : List Char) : List Char :=
  (l.reverse.takeWhile fun c => !(c == '_')).reverse

/-- after_last_underscore recovers the part after the last underscore, when
that part is underscore-free. -/
theorem after_last_underscore_spec (A X : List Char) (h : ∀ c ∈ X, c ≠ '_') :
    after_last_underscore (A ++ '_' :: X) = X := by
  unfold after_last_underscore
  rw [List.reverse_append, List.reverse_cons, List.append_assoc, List.singleton_append]
  have hall : ∀ c ∈ X.reverse, (fun c => !(c == '_')) c = true := by
    intro c hc
    have hne := h c (List.mem_reverse.mp hc)
    simp [hne]
  rw [takeWhile_append_cons (fun c => !(c == '_')) X.reverse '_' A.reverse hall (by simp)]
  exact List.reverse_reverse X

/-- The characters of ".png" contain no underscore. -/
theorem png_suffix_no_underscore : ∀ c ∈ ".png".data, c ≠ '_' := by
  decide

/-- The file names produced by _save_images for two different indices are
different, whatever the two timestamp strings are: the segment after the last
underscore is the decimal index, and decimal representations of different
numbers differ. -/
theorem save_file_name_inj {ts1 ts2 : String} {i j : Nat}
    (h : save_file_name ts1 i = save_file_name ts2 j) : i = j := by
  have h_us : ("_" : String).data = ['_'] := rfl
  have hd : ("generated_image_".data ++ ts1.data) ++ '_' :: (ten_digits i ++ ".png".data)
      = ("generated_image_".data ++ ts2.data) ++ '_' :: (ten_digits j ++ ".png".data) := by
    have h0 := congrArg String.data h
    simpa [save_file_name, String.data_append, repr_data_eq_ten_digits, h_us,
      List.append_assoc] using h0
  have hx := congrArg after_last_underscore hd
  have hno : ∀ k, ∀ c ∈ ten_digits k ++ ".png".data, c ≠ '_' := by
    intro k c hc
    rcases List.mem_append.mp hc with hc | hc
    · exact ten_digits_no_underscore k c hc
    · exact png_suffix_no_underscore c hc
  rw [after_last_underscore_spec _ _ (hno i), after_last_underscore_spec _ _ (hno j)] at hx
  exact ten_digits_inj (List.append_cancel_right hx)

/-- Specification of the writes _save_images performs, for comparison with
the translated loop: one (file name, downloaded bytes) pair per enumerated
attachment with a truthy url, in order. -/
def expected_writes_from (get : String → List Nat) (now : Nat → String)
    (attachments : List Attachment) (idx : Nat) : List (String × List Nat) :=
  (attachments.enumFrom idx).filterMap fun p =>
    match p.2.url with
    | some u =>
      if u = "" then none else some (save_file_name (now p.1) (p.1 + 1), get u)
    | none => none

/-- Specification of the writes _save_images performs, starting at index 0. -/
def expected_writes (get : String → List Nat) (now : Nat → String)
    (attachments : List Attachment) : List (String × List Nat) :=
  expected_writes_from get now attachments 0

/-- One-step unfolding of expected_writes_from. -/
theorem expected_writes_from_cons (get : String → List Nat) (now : Nat → String)
    (att : Attachment) (rest : List Attachment) (idx : Nat) :
    expected_writes_from get now (att :: rest) idx =
      match att.url with
      | some u =>
        if u = "" then expected_writes_from get now rest (idx + 1)
        else (save_file_name (now idx) (idx + 1), get u) ::
          expected_writes_from get now rest (idx + 1)
      | none => expected_writes_from get now rest (idx + 1) := by
  cases hurl : att.url with
  | none => simp [expected_writes_from, List.enumFrom, List.filterMap_cons, hurl]
  | some u =>
    by_cases hu : u = "" <;>
      simp [expected_writes_from, List.enumFrom, List.filterMap_cons, hurl, hu]

/-- On a store whose get_file always succeeds, the translated _save_images
loop performs exactly the expected writes and propagates no error. -/
theorem save_images_loop_ok (get : String → List Nat) (now : Nat → String) :
    ∀ (atts : List Attachment) (idx : Nat),
      (save_images_loop (fun u => Except.ok (get u)) now atts idx).2 =
        (expected_writes_from get now atts idx, none) := by
  intro atts
  induction atts with
  | nil =>
    intro idx
    simp [save_images_loop, expected_writes_from, List.enumFrom]
  | cons att rest ih =>
    intro idx
    rw [expected_writes_from_cons]
    cases hurl : att.url with
    | none =>
      simp only [save_images_loop, hurl]
      exact ih (idx + 1)
    | some u =>
      by_cases hu : u = ""
      · simp only [save_images_loop, hurl, if_pos hu, hu]
        exact ih (idx + 1)
      · simp only [save_images_loop, hurl, if_neg hu]
        have := ih (idx + 1)
        simp only [Prod.ext_iff] at this
        simp [if_neg hu, this.1, this.2]

/-- Every file name among the expected writes from index idx carries some
index at least idx. -/
theorem expected_writes_from_mem (get : String → List Nat) (now : Nat → String) :
    ∀ (atts : List Attachment) (idx : Nat) (q : String × List Nat),
      q ∈ expected_writes_from get now atts idx →
      ∃ j, idx ≤ j ∧ q.1 = save_file_name (now j) (j + 1) := by
  intro atts
  induction atts with
  | nil =>
    intro idx q hq
    simp [expected_writes_from, List.enumFrom] at hq
  | cons att rest ih =>
    intro idx q hq
    rw [expected_writes_from_cons] at hq
    cases hurl : att.url with
    | none =>
      rw [hurl] at hq
      obtain ⟨j, hj, hname⟩ := ih (idx + 1) q hq
      exact ⟨j, by omega, hname⟩
    | some u =>
      rw [hurl] at hq
      dsimp only at hq
      by_cases hu : u = ""
      · rw [if_pos hu] at hq
        obtain ⟨j, hj, hname⟩ := ih (idx + 1) q hq
        exact ⟨j, by omega, hname⟩
      · rw [if_neg hu] at hq
        rcases List.mem_cons.mp hq with hq | hq
        · exact ⟨idx, Nat.le_refl idx, by rw [hq]⟩
        · obtain ⟨j, hj, hname⟩ := ih (idx + 1) q hq
          exact ⟨j, by omega, hname⟩

/-- The expected write file names are pairwise distinct. -/
theorem expected_writes_from_names_pairwise (get : String → List Nat)
    (now : Nat → String) :
    ∀ (atts : List Attachment) (idx : Nat),
      ((expected_writes_from get now atts idx).map Prod.fst).Pairwise (· ≠ ·) := by
  intro atts
  induction atts with
  | nil =>
    intro idx
    simp [expected_writes_from, List.enumFrom]
  | cons att rest ih =>
    intro idx
    rw [expected_writes_from_cons]
    cases hurl : att.url with
    | none => exact ih (idx + 1)
    | some u =>
      dsimp only
      by_cases hu : u = ""
      · rw [if_pos hu]
        exact ih (idx + 1)
      · rw [if_neg hu]
        rw [List.map_cons]
        refine List.Pairwise.cons ?_ (ih (idx + 1))
        intro b hb
        rcases List.mem_map.mp hb with ⟨q, hq, rfl⟩
        obtain ⟨j, hj, hname⟩ := expected_writes_from_mem get now rest (idx + 1) q hq
        rw [hname]
        intro heq
        have := save_file_name_inj heq
        omega

/-- Claim C9: with a store whose get_file succeeds, _save_images writes a
local file exactly for the attachments whose url is non-empty, skipping
url-less attachments without error; the bytes written for each downloaded
attachment are exactly the bytes get_file returned for its url; and the file
names written are pairwise distinct, one file per attachment. -/
theorem claim_C9_save_images_writes (get : String → List Nat) (now : Nat → String)
    (attachments : List Attachment) :
    (save_images (fun u => Except.ok (get u)) now attachments).2 =
        (expected_writes get now attachments, none) ∧
      (((save_images (fun u => Except.ok (get u)) now attachments).2.1.map
          Prod.fst).Pairwise (· ≠ ·)) := by
  have h := save_images_loop_ok get now attachments 0
  constructor
  · show (save_images_loop (fun u => Except.ok (get u)) now attachments 0).2 = _
    rw [h]
    rfl
  · show ((save_images_loop (fun u => Except.ok (get u)) now attachments 0).2.1.map
      Prod.fst).Pairwise (· ≠ ·)
    rw [h]
    exact expected_writes_from_names_pairwise get now attachments 0
